import Mathlib

set_option autoImplicit false

namespace Cloudstorage

/-!  Shallow embedding of the signed-URL, locking, metadata and listing
subsystem of `cloudstorage.drivers.local.LocalDriver` (local.py), together
with the helpers it uses (helpers.py, exceptions.py).  Strings from the
Python code are modelled as `List Char`, byte strings as `List Nat`
(each entry `< 256` where it matters), and fallible operations return
`Except`. -/

/- ===================== Signed Token Codec (claims C1, C2) ================== -/

/-- Payload of a signed blob-download URL as built by
`LocalDriver.generate_blob_download_url` (local.py 650-657): `max_age`,
`expires`, `blob_name`, `container`, `method` and `content_disposition`. -/
structure Payload where
  max_age : Nat
  expires : Nat
  blob_name : List Char
  container : List Char
  method : List Char
  content_disposition : Option (List Char)
deriving DecidableEq

/-- Modelled from the spec: the `itsdangerous.URLSafeTimedSerializer` returned by
`LocalDriver._make_serializer` (local.py 162-173).  The library itself is a
third-party dependency, not part of this repository; per spec §4.3 it
serializes the payload, appends the issue time, and signs with a keyed
HMAC-SHA1 derived from the driver's secret and salt.  `enc` stands for the
URL-safe JSON serialization of a payload and `mac` for the keyed signature
over the serialized payload joined with the encoded timestamp; the theorems
below hold for every choice of `enc` and `mac`, in particular for the real
ones. -/
structure Serializer where
  enc : Payload → List Char
  mac : List Char → List Char

/-- Encoding of the timestamp segment (base64 of the issue time in the real
library; any encoding works since it is only fed to the signature). -/
def tsEnc (n : Nat) : List Char := (toString n).toList

/-- A token produced by `URLSafeTimedSerializer.dumps`: the real token is the
payload segment, the timestamp segment and the signature segment joined with
`"."`, and `loads` splits them apart again, so the structured form is a
faithful model.  The payload is kept structured; its serialized form is
recovered with `Serializer.enc`. -/
structure Token where
  payload : Payload
  ts : Nat
  sig : List Char
deriving DecidableEq

/-- The byte string that is signed: serialized payload, separator, timestamp. -/
def signedPart (s : Serializer) (p : Payload) (ts : Nat) : List Char :=
  s.enc p ++ '.' :: tsEnc ts

/-- `URLSafeTimedSerializer.dumps`: serialize and sign the payload at the
current time `issue`. -/
def dumps (s : Serializer) (p : Payload) (issue : Nat) : Token :=
  { payload := p, ts := issue, sig := s.mac (signedPart s p issue) }

/-- The two failures of `URLSafeTimedSerializer.loads`: `BadSignature` on a
signature mismatch and `SignatureExpired` when the token is older than the
requested maximum age. -/
inductive SigError where
  | badSignature
  | signatureExpired
deriving DecidableEq

/-- `URLSafeTimedSerializer.loads` at wall-clock time `now`: recompute the
signature over payload and timestamp and compare with the embedded signature
segment (mismatch is `BadSignature`); then, when a `max_age` is supplied,
fail with `SignatureExpired` when `now - timestamp > max_age` (the library
checks `age > max_age`, so age exactly `max_age` is still valid). -/
def loads (s : Serializer) (tok : Token) (max_age : Option Nat) (now : Nat) :
    Except SigError Payload :=
  if s.mac (signedPart s tok.payload tok.ts) = tok.sig then
    match max_age with
    | none => .ok tok.payload
    | some m => if now - tok.ts > m then .error .signatureExpired else .ok tok.payload
  else .error .badSignature

/-- Errors escaping `LocalDriver.validate_signature` (local.py 663-682):
`itsdangerous.SignatureExpired` from the second `loads` is translated to
`cloudstorage.exceptions.SignatureExpiredError` (exceptions.py 32-39), while
`itsdangerous.BadSignature` propagates untranslated — still a typed error
distinct from the expiry error. -/
inductive ValidateError where
  | badSignature
  | signatureExpiredError
deriving DecidableEq

/-- `LocalDriver.validate_signature` (local.py 663-682): first `loads` with
`max_age=None` to recover the payload, read the embedded `max_age` (default
0), then `loads` again enforcing that age, catching only
`itsdangerous.SignatureExpired` and re-raising it as
`SignatureExpiredError`.  With `max_age=None` the first `loads` can only
fail with `BadSignature`, which propagates. -/
def validate_signature (s : Serializer) (tok : Token) (now : Nat) :
    Except ValidateError Payload :=
  match loads s tok none now with
  | .error _ => .error .badSignature
  | .ok payload =>
    match loads s tok (some payload.max_age) now with
    | .ok p => .ok p
    | .error .signatureExpired => .error .signatureExpiredError
    | .error .badSignature => .error .badSignature

/-- `LocalDriver.generate_blob_download_url` (local.py 636-661): build the
payload with `max_age = expires` (the caller's validity window in seconds)
and `expires = now + expires` (absolute timestamp), then sign it with the
driver's serializer at the current time. -/
def generate_blob_download_url (s : Serializer) (blob_name container : List Char)
    (expires : Nat) (method : List Char) (content_disposition : Option (List Char))
    (now : Nat) : Token :=
  dumps s
    { max_age := expires
      expires := now + expires
      blob_name := blob_name
      container := container
      method := method
      content_disposition := content_disposition } now

theorem loads_dumps (s : Serializer) (p : Payload) (issue : Nat)
    (ma : Option Nat) (now : Nat) :
    loads s (dumps s p issue) ma now =
      match ma with
      | none => .ok p
      | some m => if now - issue > m then .error .signatureExpired else .ok p := by
  simp [loads, dumps]

theorem validate_dumps (s : Serializer) (p : Payload) (issue t : Nat) :
    validate_signature s (dumps s p issue) (issue + t) =
      if t ≤ p.max_age then .ok p else .error .signatureExpiredError := by
  simp only [validate_signature, loads_dumps, Nat.add_sub_cancel_left]
  by_cases h : t ≤ p.max_age
  · rw [if_neg (by omega), if_pos h]
  · rw [if_pos (by omega), if_neg h]

/-- Claim C1: for every payload signed by the driver's serializer with embedded
`max_age = N`, `validate_signature` at any time `issue + t` returns the
payload when `t ≤ N` and fails with `SignatureExpiredError` when `t > N`;
moreover, for an arbitrary token, validation succeeds if and only if the
signature verifies and `now - issueTime ≤ maxAge`; and the tokens produced
by `generate_blob_download_url` with window `N` behave exactly this way. -/
theorem validate_signature_window :
    (∀ (s : Serializer) (p : Payload) (issue t : Nat),
      validate_signature s (dumps s p issue) (issue + t) =
        if t ≤ p.max_age then .ok p else .error .signatureExpiredError) ∧
    (∀ (s : Serializer) (tok : Token) (now : Nat),
      validate_signature s tok now = .ok tok.payload ↔
        (s.mac (signedPart s tok.payload tok.ts) = tok.sig ∧
          now - tok.ts ≤ tok.payload.max_age)) ∧
    (∀ (s : Serializer) (bn cn mth : List Char) (cd : Option (List Char))
        (N issue t : Nat),
      validate_signature s (generate_blob_download_url s bn cn N mth cd issue)
          (issue + t) =
        if t ≤ N then
          .ok { max_age := N, expires := issue + N, blob_name := bn,
                container := cn, method := mth, content_disposition := cd }
        else .error .signatureExpiredError) := by
  refine ⟨validate_dumps, ?_, ?_⟩
  · intro s tok now
    by_cases hsig : s.mac (signedPart s tok.payload tok.ts) = tok.sig
    · by_cases hage : now - tok.ts > tok.payload.max_age
      · simp [validate_signature, loads, hsig, hage]
        omega
      · simp [validate_signature, loads, hsig, hage]
        omega
    · simp [validate_signature, loads, hsig]
  · intro s bn cn mth cd N issue t
    exact validate_dumps s _ issue t

/-- Claim C2: altering any single character of the signature segment of a valid
token makes `validate_signature` fail with the bad-signature error — a typed
failure distinct from `SignatureExpiredError` — and never return a payload. -/
theorem validate_signature_tamper (s : Serializer) (tok : Token) (now : Nat)
    (i : Nat) (c : Char)
    (hvalid : s.mac (signedPart s tok.payload tok.ts) = tok.sig)
    (hi : i < tok.sig.length)
    (hc : c ≠ tok.sig.getD i c) :
    validate_signature s { tok with sig := tok.sig.set i c } now =
        .error .badSignature ∧
      ValidateError.badSignature ≠ ValidateError.signatureExpiredError := by
  refine ⟨?_, by simp⟩
  have hne : tok.sig.set i c ≠ tok.sig := by
    intro h
    have h2 : (tok.sig.set i c).getD i c = tok.sig.getD i c := by rw [h]
    rw [List.getD_eq_getElem _ _ (by simpa using hi),
      List.getD_eq_getElem _ _ hi] at h2
    rw [List.getElem_set_self] at h2
    exact hc (h2.trans (List.getD_eq_getElem _ _ hi).symm ▸ h2 ▸ rfl)
  have : s.mac (signedPart s tok.payload tok.ts) ≠ tok.sig.set i c := by
    rw [hvalid]
    exact fun h => hne h.symm
  simp [validate_signature, loads, this]

/-- A concrete serializer standing in for the HMAC-SHA1 one in the witness. -/
def wSer : Serializer := ⟨fun p => p.blob_name, fun l => 'm' :: l⟩

/-- A concrete download-URL payload for the witness. -/
def wPayload : Payload := ⟨3, 10, ['a'], ['c'], ['G'], none⟩

theorem validate_signature_tamper_witness :
    wSer.mac (signedPart wSer (dumps wSer wPayload 7).payload
        (dumps wSer wPayload 7).ts) = (dumps wSer wPayload 7).sig ∧
      0 < (dumps wSer wPayload 7).sig.length ∧
      'z' ≠ (dumps wSer wPayload 7).sig.getD 0 'z' ∧
      validate_signature wSer
          { dumps wSer wPayload 7 with
            sig := (dumps wSer wPayload 7).sig.set 0 'z' } 8 =
        .error .badSignature :=
  ⟨by decide, by decide, by decide,
    (validate_signature_tamper wSer (dumps wSer wPayload 7) 8 0 'z'
      (by decide) (by decide) (by decide)).1⟩

/- ============ Upload staging, rename and lock scope (claim C3) ============= -/

/-- The observable effects of `LocalDriver.upload_blob` (local.py 511-534), in
source order, for the stream branch: `with lock_local_file(blob_path)` opens
the guard, the staging write to `blob_path + ".tmp"` and the `os.fsync`
happen inside the guard, the guard closes when the `with` block ends at line
520, and only then do `os.rename`, `os.chmod` and `_set_file_attributes`
run (lines 522-532, outside the guard). -/
inductive UpEvent where
  | acquireLock
  | writeTmp
  | fsyncTmp
  | releaseLock
  | renameTmp
  | chmodTarget
  | setAttrs
deriving DecidableEq

/-- The event order of `upload_blob` as written in local.py 511-534. -/
def upload_blob_events : List UpEvent :=
  [.acquireLock, .writeTmp, .fsyncTmp, .releaseLock, .renameTmp, .chmodTarget,
    .setAttrs]

/-- The filesystem facts relevant to one upload: the bytes visible at the
canonical blob path, the bytes at the `.tmp` staging path, and whether the
path lock is held. -/
structure UploadFS where
  canonical : Option (List Nat)
  tmp : Option (List Nat)
  lockHeld : Bool
deriving DecidableEq

/-- Effect of a single `upload_blob` step on the filesystem: the staging write
stores the full new content at the `.tmp` path, and `os.rename` atomically
moves the `.tmp` contents onto the canonical path. -/
def upStep (content : List Nat) (fs : UploadFS) : UpEvent → UploadFS
  | .acquireLock => { fs with lockHeld := true }
  | .writeTmp => { fs with tmp := some content }
  | .fsyncTmp => fs
  | .releaseLock => { fs with lockHeld := false }
  | .renameTmp => { fs with canonical := fs.tmp, tmp := none }
  | .chmodTarget => fs
  | .setAttrs => fs

/-- Run a prefix of the upload: the state after executing the given events. -/
def upExec (content : List Nat) (fs : UploadFS) (evs : List UpEvent) : UploadFS :=
  evs.foldl (upStep content) fs

/-- Claim C3, counterexample: in `upload_blob` the lock guard closes before
`os.rename` runs — after the first four events (ending with the lock
release) the very next event is the rename, and the lock is no longer held
at that point, so the path lock is not held "until after the rename". -/
theorem upload_rename_outside_lock_counterexample :
    upload_blob_events.take 4 =
        [.acquireLock, .writeTmp, .fsyncTmp, .releaseLock] ∧
      upload_blob_events.get? 4 = some .renameTmp ∧
      (upExec [1] ⟨none, none, false⟩ (upload_blob_events.take 4)).lockHeld
        = false := by
  decide

/-- Claim C3 as amended: `upload_blob` writes the full content to the `.tmp`
sibling and syncs it with the path lock held, but releases the lock before
the rename; nevertheless any failure before the rename leaves the canonical
blob exactly as it was, and at every step the canonical path holds either
the original contents or the complete new contents — never a partial
write. -/
theorem upload_blob_staging_atomic :
    (upload_blob_events.take 5 =
      [.acquireLock, .writeTmp, .fsyncTmp, .releaseLock, .renameTmp]) ∧
    (∀ (content : List Nat) (fs : UploadFS) (k : Nat),
      1 ≤ k → k ≤ 3 →
      (upExec content fs (upload_blob_events.take k)).lockHeld = true) ∧
    (∀ (content : List Nat) (fs : UploadFS) (k : Nat),
      k ≤ 4 →
      (upExec content fs (upload_blob_events.take k)).canonical = fs.canonical) ∧
    (∀ (content : List Nat) (fs : UploadFS) (k : Nat),
      (upExec content fs (upload_blob_events.take k)).canonical = fs.canonical ∨
      (upExec content fs (upload_blob_events.take k)).canonical = some content) := by
  refine ⟨rfl, ?_, ?_, ?_⟩
  · intro content fs k h1 h3
    interval_cases k <;> simp [upExec, upStep, upload_blob_events]
  · intro content fs k hk
    interval_cases k <;> simp [upExec, upStep, upload_blob_events]
  · intro content fs k
    match k with
    | 0 => left; rfl
    | 1 => left; rfl
    | 2 => left; rfl
    | 3 => left; rfl
    | 4 => left; rfl
    | 5 => right; rfl
    | 6 => right; rfl
    | n + 7 =>
      right
      rw [List.take_of_length_le (show upload_blob_events.length ≤ n + 7 by
        simp only [upload_blob_events, List.length_cons, List.length_nil]
        omega)]
      rfl

theorem upload_blob_staging_atomic_witness :
    (1 ≤ 2 ∧ 2 ≤ 3 ∧
      (upExec [9] ⟨some [5], none, false⟩ (upload_blob_events.take 2)).lockHeld
        = true) ∧
    (3 ≤ 4 ∧
      (upExec [9] ⟨some [5], none, false⟩ (upload_blob_events.take 3)).canonical
        = some [5]) :=
  ⟨⟨by decide, by decide,
    upload_blob_staging_atomic.2.1 [9] ⟨some [5], none, false⟩ 2
      (by decide) (by decide)⟩,
    ⟨by decide,
      upload_blob_staging_atomic.2.2.1 [9] ⟨some [5], none, false⟩ 3 (by decide)⟩⟩

/- ================== Lock guard cleanup (claim C6) ========================= -/

/-- Whether the body of a `with lock_local_file(path)` block finishes normally
or raises an exception that propagates out of the block. -/
inductive BodyOutcome where
  | normal
  | raises
deriving DecidableEq

/-- The lock-relevant state of one path: whether the `path + ".lock"` sidecar
file exists and whether the lock is held. -/
structure LockState where
  lockFileExists : Bool
  lockHeld : Bool
deriving DecidableEq

/-- `filelock.FileLock.acquire` (local.py 62-67, successful case): the sidecar
lock file is created and the lock taken. -/
def lock_acquire (st : LockState) : LockState :=
  { st with lockFileExists := true, lockHeld := true }

/-- The statements of `lock_local_file` after the `yield` (local.py 71-75):
release the lock if held, then remove the lock file if it exists. -/
def lock_cleanup (st : LockState) : LockState :=
  let st1 := if st.lockHeld then { st with lockHeld := false } else st
  if st1.lockFileExists then { st1 with lockFileExists := false } else st1

/-- Running `with lock_local_file(path): body` under `contextlib.contextmanager`
semantics: `__enter__` runs the generator to the `yield` (executing the
acquire); on normal completion `__exit__` resumes the generator, running the
post-`yield` cleanup; on an exception `__exit__` throws it into the
generator at the `yield`, and since local.py 69-75 has no try/finally around
the `yield`, the exception propagates and the cleanup after it never runs. -/
def with_lock_local_file (st : LockState) (body : BodyOutcome) : LockState :=
  let entered := lock_acquire st
  match body with
  | .normal => lock_cleanup entered
  | .raises => entered

/-- Claim C6: the lock sidecar file is removed on the normal exit path, but when
the guarded block raises, the cleanup after the `yield` is skipped, so the
lock file (and the lock itself) outlives the critical section — the claimed
"every exit path" guarantee fails on the exception path. -/
theorem lock_file_not_removed_on_exception (st : LockState) :
    (with_lock_local_file st .normal).lockFileExists = false ∧
      (with_lock_local_file st .normal).lockHeld = false ∧
      (with_lock_local_file st .raises).lockFileExists = true ∧
      (with_lock_local_file st .raises).lockHeld = true := by
  refine ⟨?_, ?_, rfl, rfl⟩ <;>
    simp [with_lock_local_file, lock_acquire, lock_cleanup]

/- ================== delete_blob on a missing file (claim C10) ============= -/

/-- The failure taxonomy of `cloudstorage.exceptions` (exceptions.py), as far as
the local driver raises it. -/
inductive DriverError where
  | notFoundError
  | isNotEmptyError
  | cloudStorageError
deriving DecidableEq

/-- A flat filesystem for `delete_blob`: an association list from paths to file
contents. -/
abbrev FlatFS : Type := List (List Char × List Nat)

/-- `os.unlink`: remove the file, or raise `OSError` (ENOENT) when absent. -/
def unlink (fs : FlatFS) (p : List Char) : Except Unit FlatFS :=
  if (fs.filter (fun e => e.1 = p)).isEmpty then .error ()
  else .ok (fs.filter (fun e => e.1 ≠ p))

/-- `LocalDriver.delete_blob` (local.py 577-588), non-Windows branch: lock the
blob path (under no contention the sidecar is created and removed again by
the guard's normal exit), `try: os.unlink(path) except OSError as err:
logger.exception(err)` — the `OSError` is caught and logged inside the
guarded block, so the call returns normally either way. -/
def delete_blob (fs : FlatFS) (p : List Char) : Except DriverError FlatFS :=
  match unlink fs p with
  | .ok fs' => .ok fs'
  | .error _ => .ok fs

/-- Claim C10: `delete_blob` on a blob whose file does not exist raises no error
(in particular no `NotFoundError`): the `OSError` from `os.unlink` is caught
and logged, the call returns normally, and the filesystem is unchanged. -/
theorem delete_blob_missing_ok (fs : FlatFS) (p : List Char)
    (h : ∀ e ∈ fs, e.1 ≠ p) :
    delete_blob fs p = .ok fs := by
  have : fs.filter (fun e => e.1 = p) = [] := by
    rw [List.filter_eq_nil_iff]
    intro e he
    simpa using h e he
  simp [delete_blob, unlink, this]

theorem delete_blob_missing_ok_witness :
    (∀ e ∈ ([(['a'], [1, 2])] : FlatFS), e.1 ≠ ['b']) ∧
      delete_blob [(['a'], [1, 2])] ['b'] = .ok [(['a'], [1, 2])] :=
  ⟨by decide, delete_blob_missing_ok [(['a'], [1, 2])] ['b'] (by decide)⟩

/- ========= Container name validation and path traversal (claim C4) ======== -/

/-- `pathlib.Path(path).name`: the final `/`-separated component of a path. -/
def pathName (p : List Char) : List Char :=
  p.foldl (fun acc c => if c = '/' then [] else acc ++ [c]) []

/-- `LocalDriver._check_path_accessible` (local.py 185-197): on Windows reject a
path whose final component starts with `"."` and ends with `".xattr"` (the
simulated-xattr sidecar files); on every other platform accept everything. -/
def check_path_accessible (isWindows : Bool) (path : List Char) : Bool :=
  if isWindows then
    !(['.'].isPrefixOf (pathName path) &&
      (".xattr".toList).isSuffixOf (pathName path))
  else true

/-- `os.path.join(base, name)` for a relative `name`. -/
def joinPath (a b : List Char) : List Char := a ++ '/' :: b

/-- `LocalDriver.create_container` (local.py 428-448): the only validation of a
container name before `os.makedirs(os.path.join(base_path, name))` is
`_check_path_accessible` on the joined path (`_make_path` swallows every
`OSError` other than a non-ignored `EEXIST`); this function is that
acceptance test. -/
def create_container_accepts (isWindows : Bool) (base name : List Char) : Bool :=
  check_path_accessible isWindows (joinPath base name)

/-- Split a path into its `/`-separated segments. -/
def splitOnChar (sep : Char) : List Char → List (List Char)
  | [] => [[]]
  | c :: rest =>
    match splitOnChar sep rest with
    | [] => [[]]
    | s :: ss => if c = sep then [] :: s :: ss else (c :: s) :: ss

/-- Resolve path segments against a starting directory: empty and `"."`
segments are dropped, `".."` pops one directory (staying put at the
filesystem root), and any other segment descends. -/
def resolveSegs (start : List (List Char)) (segs : List (List Char)) :
    List (List Char) :=
  segs.foldl
    (fun acc s =>
      if s = [] ∨ s = ['.'] then acc
      else if s = ['.', '.'] then acc.dropLast
      else acc ++ [s]) start

/-- Follows the spec's words (spec.md §3): a container name "must resolve to a
path strictly inside the driver's base path" — the resolved directory has
the base path's segments as a proper prefix. -/
def resolvesStrictlyInside (base name : List Char) : Bool :=
  let b := splitOnChar '/' base
  let r := resolveSegs b (splitOnChar '/' name)
  b.isPrefixOf r && !(r == b)

/-- Claim C4, counterexample: `create_container("../../etc")` with base path
`tmp/store` passes the driver's only name check on both platforms, yet the
name resolves to `etc`, outside the base path — the code performs no
traversal rejection. -/
theorem create_container_traversal_counterexample :
    create_container_accepts false "tmp/store".toList "../../etc".toList = true ∧
      create_container_accepts true "tmp/store".toList "../../etc".toList
        = true ∧
      resolvesStrictlyInside "tmp/store".toList "../../etc".toList = false := by
  decide

/-- Claim C4 as amended: `create_container` performs no path-traversal
validation at all — a container name is rejected if and only if the driver
runs on Windows and the joined path's final component has the
attribute-sidecar shape (starts with `"."`, ends with `".xattr"`); in
particular every traversal name is accepted on non-Windows platforms. -/
theorem create_container_name_check_characterization :
    (∀ (w : Bool) (base name : List Char),
      create_container_accepts w base name = false ↔
        (w = true ∧
          ['.'].isPrefixOf (pathName (joinPath base name)) = true ∧
          (".xattr".toList).isSuffixOf (pathName (joinPath base name)) = true)) ∧
    (∀ base name : List Char, create_container_accepts false base name = true) := by
  constructor
  · intro w base name
    cases w <;> simp [create_container_accepts, check_path_accessible]
  · intro base name
    simp [create_container_accepts, check_path_accessible]

/- ============== Blob listing and bookkeeping entries (claim C5) =========== -/

/-- The fixed set of directory names pruned by `get_blobs` (local.py 47). -/
def IGNORE_FOLDERS : List (List Char) :=
  [".lock".toList, ".hash".toList, ".DS_STORE".toList]

/-- A directory tree under a container: regular file names and named
sub-directories. -/
inductive Dir where
  | mk (files : List (List Char)) (subdirs : List (List Char × Dir))

/-- The file names of a directory. -/
def Dir.files : Dir → List (List Char)
  | .mk fs _ => fs

/-- The sub-directories of a directory. -/
def Dir.subdirs : Dir → List (List Char × Dir)
  | .mk _ sds => sds

mutual

/-- `LocalDriver.get_blobs` (local.py 539-553): `os.walk` over the container
path with `topdown=True`, removing the `IGNORE_FOLDERS` names from the
sub-directory list before descending; every remaining file is yielded
(as its base name) unless `_check_path_accessible` rejects it. -/
def walkFiles (w : Bool) : Dir → List (List Char)
  | .mk files subdirs =>
    files.filter (fun f => check_path_accessible w f) ++ walkSubdirs w subdirs

/-- The recursive descent of `os.walk` into the surviving sub-directories. -/
def walkSubdirs (w : Bool) : List (List Char × Dir) → List (List Char)
  | [] => []
  | (name, d) :: rest =>
    (if name ∈ IGNORE_FOLDERS then [] else walkFiles w d) ++ walkSubdirs w rest

end

/-- Follows the spec's words (spec.md §4.4, §6, §8): backend bookkeeping entries
are the lock sidecars `*.lock`, the in-flight staging files `*.tmp`, and the
attribute sidecars `.*.xattr` — none of them is a blob. -/
def specIsBookkeeping (name : List Char) : Bool :=
  (".lock".toList).isSuffixOf name || (".tmp".toList).isSuffixOf name ||
    (['.'].isPrefixOf name && (".xattr".toList).isSuffixOf name)

/-- Claim C5, counterexample: a stale staging artifact `a.txt.tmp` left by an
interrupted upload is bookkeeping per the spec, yet `get_blobs` on a
container holding only that file yields it — `.tmp` files are not excluded
from the listing. -/
theorem get_blobs_tmp_counterexample :
    specIsBookkeeping "a.txt.tmp".toList = true ∧
      "a.txt.tmp".toList ∈ walkFiles false (.mk ["a.txt.tmp".toList] []) := by
  constructor
  · decide
  · simp [walkFiles, walkSubdirs, check_path_accessible]

/-- Claim C5 as amended: `get_blobs` skips only the fixed ignored-directory
names and, on Windows, the attribute-sidecar files; on non-Windows platforms
every file in the tree is yielded — in particular lock sidecar files and
stale `.tmp` staging artifacts appear in the listing. -/
theorem get_blobs_filtering :
    (∀ files : List (List Char), walkFiles false (.mk files []) = files) ∧
    (∀ files : List (List Char),
      walkFiles true (.mk files []) =
        files.filter (fun f =>
          !(['.'].isPrefixOf (pathName f) &&
            (".xattr".toList).isSuffixOf (pathName f)))) ∧
    (∀ (w : Bool) (name : List Char) (d : Dir) (files : List (List Char))
        (subdirs : List (List Char × Dir)),
      name ∈ IGNORE_FOLDERS →
      walkFiles w (.mk files ((name, d) :: subdirs)) =
        walkFiles w (.mk files subdirs)) := by
  refine ⟨?_, ?_, ?_⟩
  · intro files
    simp [walkFiles, walkSubdirs, check_path_accessible]
  · intro files
    simp [walkFiles, walkSubdirs, check_path_accessible]
  · intro w name d files subdirs hmem
    simp [walkFiles, walkSubdirs, hmem]

theorem get_blobs_filtering_witness :
    ".lock".toList ∈ IGNORE_FOLDERS ∧
      walkFiles false
          (.mk ["a.txt".toList]
            [(".lock".toList, .mk ["x".toList] [])]) =
        walkFiles false (.mk ["a.txt".toList] []) :=
  ⟨by decide,
    get_blobs_filtering.2.2 false ".lock".toList (.mk ["x".toList] [])
      ["a.txt".toList] [] (by decide)⟩

/- ============== Container emptiness and deletion (claim C8) =============== -/

/-- `LocalDriver._OBJECT_META_PREFIX` (local.py 684): the namespace put in front
of every extended attribute. -/
def OBJECT_META_NS : List Char := "user.".toList

/-- The attributes dictionary handed to `_set_file_attributes` by `upload_blob`
(local.py 495-532), in insertion order: the metadata map, then
`content_disposition`, `cache_control` and finally `content_type` (always
set last at lines 526-529); `extra` is empty in the round-trip claim. -/
structure UploadAttributes where
  meta_data : List (List Char × List Char)
  content_disposition : Option (List Char)
  cache_control : Option (List Char)
  content_type : Option (List Char)

/-- One metadata entry becomes the xattr `user.metadata.<key>` (local.py
265-271). -/
def writeMeta (kv : List Char × List Char) : List Char × List Char :=
  (OBJECT_META_NS ++ "metadata.".toList ++ kv.1, kv.2)

/-- The `meta_data` branch of `_set_file_attributes`: a falsy (empty) metadata
map is skipped entirely by `if not value: continue` (local.py 260-271). -/
def metaAttrs (md : List (List Char × List Char)) :
    List (List Char × List Char) :=
  if md = [] then [] else md.map writeMeta

/-- A singleton attribute becomes `user.<key>` (local.py 272-275); a missing or
empty value is skipped by `if not value: continue`. -/
def optAttr (key : List Char) (v : Option (List Char)) :
    List (List Char × List Char) :=
  match v with
  | none => []
  | some s => if s = [] then [] else [(OBJECT_META_NS ++ key, s)]

/-- `LocalDriver._set_file_attributes` (local.py 236-277): the sequence of
xattr writes `(attribute name, value)` performed for the upload attributes,
in dictionary order. -/
def set_file_attributes (a : UploadAttributes) : List (List Char × List Char) :=
  metaAttrs a.meta_data
    ++ optAttr "content_disposition".toList a.content_disposition
    ++ optAttr "cache_control".toList a.cache_control
    ++ optAttr "content_type".toList a.content_type

/-- The attribute-derived fields of a materialized blob (local.py 363-366). -/
structure BlobAttrs where
  meta_data : List (List Char × List Char)
  content_type : Option (List Char)
  content_disposition : Option (List Char)
  cache_control : Option (List Char)
deriving DecidableEq

/-- Python's `attr_key.split(".")[-1]` (local.py 380): the part of the string
after its last `"."` (the whole string when there is no dot). -/
def lastComponent (l : List Char) : List Char :=
  l.foldl (fun acc c => if c = '.' then [] else acc ++ [c]) []

/-- One iteration of the attribute classification loop in `_make_blob`
(local.py 371-389): keys starting with `user.metadata` are collected into
`meta_data` under their last dot-separated component; keys ending in
`content_type` / `content_disposition` / `cache_control` set those fields;
anything else is logged and ignored. -/
def classifyAttr (acc : BlobAttrs) (kv : List Char × List Char) : BlobAttrs :=
  if (OBJECT_META_NS ++ "metadata".toList).isPrefixOf kv.1 then
    { acc with meta_data := acc.meta_data ++ [(lastComponent kv.1, kv.2)] }
  else if ("content_type".toList).isSuffixOf kv.1 then
    { acc with content_type := some kv.2 }
  else if ("content_disposition".toList).isSuffixOf kv.1 then
    { acc with content_disposition := some kv.2 }
  else if ("cache_control".toList).isSuffixOf kv.1 then
    { acc with cache_control := some kv.2 }
  else acc

/-- The attribute read-back of `_make_blob` (local.py 363-391) over the stored
xattr items. -/
def make_blob_attrs (xs : List (List Char × List Char)) : BlobAttrs :=
  xs.foldl classifyAttr ⟨[], none, none, none⟩

/-- Claim C7, counterexample: the metadata map `{"a.b": "v"}` does not
round-trip — `_set_file_attributes` stores it as `user.metadata.a.b`, and
`_make_blob` reads the key back as `split(".")[-1] = "b"`, yielding
`{"b": "v"}`. -/
theorem meta_roundtrip_counterexample :
    (make_blob_attrs (set_file_attributes
        ⟨[("a.b".toList, "v".toList)], none, none, none⟩)).meta_data
      ≠ [("a.b".toList, "v".toList)] := by
  decide

theorem foldl_lastComponent_no_dot (k : List Char) (hk : '.' ∉ k) :
    ∀ acc : List Char,
      k.foldl (fun acc c => if c = '.' then [] else acc ++ [c]) acc = acc ++ k := by
  induction k with
  | nil => intro acc; simp
  | cons c rest ih =>
    intro acc
    have hc : c ≠ '.' := fun h => hk (by simp [h])
    have hrest : '.' ∉ rest := fun h => hk (List.mem_cons_of_mem _ h)
    simp only [List.foldl_cons, if_neg hc]
    rw [ih hrest]
    simp

theorem lastComponent_after_dot (xs k : List Char) (hk : '.' ∉ k) :
    lastComponent (xs ++ '.' :: k) = k := by
  unfold lastComponent
  rw [List.foldl_append, List.foldl_cons, if_pos rfl,
    foldl_lastComponent_no_dot k hk []]
  simp

theorem isPrefixOf_append_self (l t : List Char) : l.isPrefixOf (l ++ t) = true := by
  induction l with
  | nil => simp [List.isPrefixOf]
  | cons c rest ih => simp [List.isPrefixOf, ih]

theorem classifyAttr_meta (acc : BlobAttrs) (kv : List Char × List Char)
    (h : '.' ∉ kv.1) :
    classifyAttr acc (writeMeta kv) =
      { acc with meta_data := acc.meta_data ++ [kv] } := by
  have hkey : (writeMeta kv).1 =
      (OBJECT_META_NS ++ "metadata".toList) ++ '.' :: kv.1 := by
    simp [writeMeta, OBJECT_META_NS]
  have hpre : (OBJECT_META_NS ++ "metadata".toList).isPrefixOf (writeMeta kv).1
      = true := by
    rw [hkey]; exact isPrefixOf_append_self _ _
  have hlast : lastComponent (writeMeta kv).1 = kv.1 := by
    rw [hkey, List.append_assoc]
    exact lastComponent_after_dot _ _ h
  unfold classifyAttr
  rw [if_pos hpre, hlast]
  simp [writeMeta]

theorem foldl_classify_meta (md : List (List Char × List Char))
    (acc : BlobAttrs) (h : ∀ kv ∈ md, '.' ∉ kv.1) :
    ((md.map writeMeta).foldl classifyAttr acc).meta_data
      = acc.meta_data ++ md := by
  induction md generalizing acc with
  | nil => simp
  | cons kv rest ih =>
    simp only [List.map_cons, List.foldl_cons]
    rw [classifyAttr_meta acc kv (h kv (List.mem_cons_self kv rest)),
      ih _ (fun e he => h e (List.mem_cons_of_mem _ he))]
    simp

theorem classifyAttr_cd (acc : BlobAttrs) (s : List Char) :
    (classifyAttr acc (OBJECT_META_NS ++ "content_disposition".toList, s)).meta_data
      = acc.meta_data := by
  unfold classifyAttr
  dsimp only
  rw [if_neg (by decide), if_neg (by decide), if_pos (by decide)]

theorem classifyAttr_cc (acc : BlobAttrs) (s : List Char) :
    (classifyAttr acc (OBJECT_META_NS ++ "cache_control".toList, s)).meta_data
      = acc.meta_data := by
  unfold classifyAttr
  dsimp only
  rw [if_neg (by decide), if_neg (by decide), if_neg (by decide),
    if_pos (by decide)]

theorem classifyAttr_ct (acc : BlobAttrs) (s : List Char) :
    (classifyAttr acc (OBJECT_META_NS ++ "content_type".toList, s)).meta_data
      = acc.meta_data := by
  unfold classifyAttr
  dsimp only
  rw [if_neg (by decide), if_pos (by decide)]

theorem foldl_optAttr_meta (key : List Char) (v : Option (List Char))
    (acc : BlobAttrs)
    (h : ∀ s, (classifyAttr acc (OBJECT_META_NS ++ key, s)).meta_data
      = acc.meta_data) :
    (((optAttr key v).foldl classifyAttr acc)).meta_data = acc.meta_data := by
  match v with
  | none => simp [optAttr]
  | some s =>
    by_cases hs : s = []
    · simp [optAttr, hs]
    · simp only [optAttr, if_neg hs, List.foldl_cons, List.foldl_nil]
      exact h s

/-- Claim C7 as amended: the metadata round-trip holds for every map whose keys
contain no `"."`: uploading with `meta_data = M` and re-materializing yields
`meta_data = M` again; a key containing a dot comes back truncated to its
final dot-separated component (see the counterexample). -/
theorem meta_roundtrip_no_dot (md : List (List Char × List Char))
    (cd cc ct : Option (List Char)) (hdot : ∀ kv ∈ md, '.' ∉ kv.1) :
    (make_blob_attrs (set_file_attributes ⟨md, cd, cc, ct⟩)).meta_data = md := by
  unfold make_blob_attrs set_file_attributes
  rw [List.foldl_append, List.foldl_append, List.foldl_append]
  rw [foldl_optAttr_meta _ ct _ (fun s => classifyAttr_ct _ s)]
  rw [foldl_optAttr_meta _ cc _ (fun s => classifyAttr_cc _ s)]
  rw [foldl_optAttr_meta _ cd _ (fun s => classifyAttr_cd _ s)]
  by_cases hmd : md = []
  · simp [metaAttrs, hmd]
  · rw [metaAttrs, if_neg hmd]
    simpa using foldl_classify_meta md _ hdot

theorem meta_roundtrip_no_dot_witness :
    (∀ kv ∈ [("color".toList, "red".toList), ("owner".toList, "me".toList)],
      '.' ∉ kv.1) ∧
      (make_blob_attrs (set_file_attributes
          ⟨[("color".toList, "red".toList), ("owner".toList, "me".toList)],
            some "inline".toList, none, some "text/plain".toList⟩)).meta_data
        = [("color".toList, "red".toList), ("owner".toList, "me".toList)] :=
  ⟨by decide,
    meta_roundtrip_no_dot
      [("color".toList, "red".toList), ("owner".toList, "me".toList)]
      (some "inline".toList) none (some "text/plain".toList) (by decide)⟩

/- ========== Checksum and size on materialization (claim C9) =============== -/

/-!  `_make_blob` (local.py 393-406) computes `checksum` by calling
`helpers.file_checksum(full_path, hash_type=self.hash_type)` with the
driver's default `hash_type = "md5"` (local.py 113) and taking the hex
digest, and takes `size` from `os.stat(...).st_size`.  `hashlib.md5` is the
standard MD5 algorithm (RFC 1321), embedded below over byte lists. -/

/-- Truncation to a 32-bit word. -/
def u32 (n : Nat) : Nat := n % 4294967296

/-- 32-bit left rotation. -/
def rotl32 (x n : Nat) : Nat := u32 ((x <<< n) ||| (x >>> (32 - n)))

/-- The MD5 per-round left-rotation amounts. -/
def md5S : List Nat :=
  [7,12,17,22,7,12,17,22,7,12,17,22,7,12,17,22,
   5,9,14,20,5,9,14,20,5,9,14,20,5,9,14,20,
   4,11,16,23,4,11,16,23,4,11,16,23,4,11,16,23,
   6,10,15,21,6,10,15,21,6,10,15,21,6,10,15,21]

/-- The MD5 sine-derived round constants. -/
def md5K : List Nat :=
  [0xd76aa478, 0xe8c7b756, 0x242070db, 0xc1bdceee,
   0xf57c0faf, 0x4787c62a, 0xa8304613, 0xfd469501,
   0x698098d8, 0x8b44f7af, 0xffff5bb1, 0x895cd7be,
   0x6b901122, 0xfd987193, 0xa679438e, 0x49b40821,
   0xf61e2562, 0xc040b340, 0x265e5a51, 0xe9b6c7aa,
   0xd62f105d, 0x02441453, 0xd8a1e681, 0xe7d3fbc8,
   0x21e1cde6, 0xc33707d6, 0xf4d50d87, 0x455a14ed,
   0xa9e3e905, 0xfcefa3f8, 0x676f02d9, 0x8d2a4c8a,
   0xfffa3942, 0x8771f681, 0x6d9d6122, 0xfde5380c,
   0xa4beea44, 0x4bdecfa9, 0xf6bb4b60, 0xbebfbc70,
   0x289b7ec6, 0xeaa127fa, 0xd4ef3085, 0x04881d05,
   0xd9d4d039, 0xe6db99e5, 0x1fa27cf8, 0xc4ac5665,
   0xf4292244, 0x432aff97, 0xab9423a7, 0xfc93a039,
   0x655b59c3, 0x8f0ccc92, 0xffeff47d, 0x85845dd1,
   0x6fa87e4f, 0xfe2ce6e0, 0xa3014314, 0x4e0811a1,
   0xf7537e82, 0xbd3af235, 0x2ad7d2bb, 0xeb86d391]

/-- The MD5 round mixing function (bitwise negation on 32-bit words is xor with
`0xffffffff`). -/
def md5F (i b c d : Nat) : Nat :=
  if i < 16 then (b &&& c) ||| ((b ^^^ 4294967295) &&& d)
  else if i < 32 then (d &&& b) ||| ((d ^^^ 4294967295) &&& c)
  else if i < 48 then b ^^^ c ^^^ d
  else c ^^^ (b ||| (d ^^^ 4294967295))

/-- The MD5 message-word index for round `i`. -/
def md5G (i : Nat) : Nat :=
  if i < 16 then i
  else if i < 32 then (5 * i + 1) % 16
  else if i < 48 then (3 * i + 5) % 16
  else (7 * i) % 16

/-- Little-endian grouping of bytes into 32-bit words. -/
def toWords32 : List Nat → List Nat
  | b0 :: b1 :: b2 :: b3 :: rest =>
    (b0 + 256 * b1 + 65536 * b2 + 16777216 * b3) :: toWords32 rest
  | _ => []

/-- One MD5 round on the state `(a, b, c, d)`. -/
def md5Round (M : List Nat) (st : Nat × Nat × Nat × Nat) (i : Nat) :
    Nat × Nat × Nat × Nat :=
  match st with
  | (a, b, c, d) =>
    let f := u32 (md5F i b c d + a + md5K.getD i 0 + M.getD (md5G i) 0)
    (d, u32 (b + rotl32 f (md5S.getD i 0)), b, c)

/-- Process one 64-byte block: 64 rounds, then add the block result to the
incoming state. -/
def processBlock (st : Nat × Nat × Nat × Nat) (block : List Nat) :
    Nat × Nat × Nat × Nat :=
  match st with
  | (a0, b0, c0, d0) =>
    match (List.range 64).foldl (md5Round (toWords32 block)) (a0, b0, c0, d0) with
    | (a, b, c, d) => (u32 (a0 + a), u32 (b0 + b), u32 (c0 + c), u32 (d0 + d))

/-- The 64-bit little-endian byte encoding of the message bit length. -/
def lenBytes64 (n : Nat) : List Nat :=
  [n % 256, n / 256 % 256, n / 65536 % 256, n / 16777216 % 256,
   n / 4294967296 % 256, n / 1099511627776 % 256,
   n / 281474976710656 % 256, n / 72057594037927936 % 256]

/-- MD5 padding: a `0x80` byte, zeros to 56 mod 64, then the bit length. -/
def md5Pad (msg : List Nat) : List Nat :=
  msg ++ 128 :: List.replicate ((120 - (msg.length + 1) % 64) % 64) 0
    ++ lenBytes64 (8 * msg.length)

/-- Split a byte list into consecutive blocks of `k` bytes (the final block may
be short); `fuel` bounds the recursion and any `fuel ≥ l.length` is enough
when `k > 0`. -/
def chunksList (k : Nat) : Nat → List Nat → List (List Nat)
  | 0, _ => []
  | _ + 1, [] => []
  | fuel + 1, l => l.take k :: chunksList k fuel (l.drop k)

/-- The MD5 digest state of a byte string: pad, then fold the compression
function over the 64-byte blocks from the standard initial state. -/
def md5Digest (msg : List Nat) : Nat × Nat × Nat × Nat :=
  (chunksList 64 (md5Pad msg).length (md5Pad msg)).foldl processBlock
    (0x67452301, 0xefcdab89, 0x98badcfe, 0x10325476)

/-- Lower-case hex digit. -/
def hexDigit (n : Nat) : Char := "0123456789abcdef".toList.getD n '0'

/-- Two-digit lower-case hex of one byte. -/
def byteHex (b : Nat) : List Char := [hexDigit (b / 16), hexDigit (b % 16)]

/-- Little-endian bytes of a 32-bit word. -/
def word32Bytes (w : Nat) : List Nat :=
  [w % 256, w / 256 % 256, w / 65536 % 256, w / 16777216 % 256]

/-- `hashlib.md5(msg).hexdigest()`: the 32-character lower-case hex digest. -/
def md5Hex (msg : List Nat) : List Char :=
  match md5Digest msg with
  | (a, b, c, d) => (([a, b, c, d].map word32Bytes).flatten.map byteHex).flatten

/-- `read_in_chunks` (helpers.py 13-32) with the default `block_size=4096`:
the stream's bytes in consecutive 4096-byte blocks. -/
def read_in_chunks (content : List Nat) : List (List Nat) :=
  chunksList 4096 content.length content

/-- `file_checksum` (helpers.py 35-83) with the driver's `hash_type="md5"`:
feed the file to the hash in 4096-byte blocks; incrementally updating
`hashlib.md5` over blocks is hashing their concatenation.  `_make_blob`
takes the hex digest of the result (local.py 395-396). -/
def file_checksum (content : List Nat) : List Char :=
  md5Hex (read_in_chunks content).flatten

/-- The checksum and size fields of a materialized blob. -/
structure BlobInfo where
  checksum : List Char
  size : Nat
deriving DecidableEq

/-- `_make_blob` (local.py 393-406): every call recomputes the checksum from
the file's current bytes via `file_checksum` and reads the size from
`os.stat(...).st_size`, the byte count of a regular file. -/
def make_blob_info (content : List Nat) : BlobInfo :=
  { checksum := file_checksum content, size := content.length }

theorem chunksList_flatten (k : Nat) (hk : 0 < k) :
    ∀ (fuel : Nat) (l : List Nat), l.length ≤ fuel →
      (chunksList k fuel l).flatten = l := by
  intro fuel
  induction fuel with
  | zero =>
    intro l hl
    rw [List.eq_nil_of_length_eq_zero (Nat.le_zero.mp hl)]
    rfl
  | succ f ih =>
    intro l hl
    match l with
    | [] => rfl
    | a :: rest =>
      show (((a :: rest).take k :: chunksList k f ((a :: rest).drop k))).flatten
        = a :: rest
      rw [List.flatten_cons, ih ((a :: rest).drop k) (by
        rw [List.length_drop]
        simp only [List.length_cons] at hl ⊢
        omega)]
      exact List.take_append_drop k (a :: rest)

set_option maxRecDepth 100000

/-- Claim C9: materialization computes the checksum by MD5-hashing the file's
current bytes on every call and reports the size from the file stat; in
particular a blob whose file holds the five bytes of `"hello"` materializes
with `size = 5` and checksum
`5d41402abc4b2a76b9719d911017c592`. -/
theorem make_blob_checksum_size :
    (∀ content : List Nat,
      (make_blob_info content).checksum = md5Hex content ∧
      (make_blob_info content).size = content.length) ∧
    make_blob_info [104, 101, 108, 108, 111] =
      ⟨"5d41402abc4b2a76b9719d911017c592".toList, 5⟩ := by
  constructor
  · intro content
    refine ⟨?_, rfl⟩
    show md5Hex (read_in_chunks content).flatten = md5Hex content
    rw [show (read_in_chunks content).flatten = content from
      chunksList_flatten 4096 (by omega) content.length content (Nat.le_refl _)]
  · decide

end Cloudstorage
